import Mathlib

/-!
# Verification of the arbitrage-engine core (pool math, token identity, graph)

Shallow embedding of the repository's Rust sources:
* `src/common/pool.rs`   — `UniswapV2Pool`, `UniswapV3Pool`, `UniswapV4Pool`, `PoolVariant`
* `src/common/token.rs`  — `Token`
* `src/common/graph.rs`  — `GraphManager`
* `src/scout/graph.rs`   — `ArbitrageGraph`
* `src/utils/models.rs`  — `TokenNode`, `PoolEdge`

Machine integers are modelled as `ℕ` with explicit reduction modulo `2 ^ 256`
where the Rust code computes in `U256` (alloy/ruint semantics: arithmetic wraps
modulo 2^256 in release builds; division by a zero `U256` panics, modelled as
`none`).  Addresses are modelled as natural numbers (their 160-bit value).
Fallible operations return `Option`/pair-with-`Option`-error values; a Rust
panic (`expect`, division by zero, `todo!()`) is modelled as the error outcome.
-/

/-- The modulus of `U256` arithmetic (alloy `U256` wraps modulo `2 ^ 256`). -/
def U256MOD : ℕ := 2 ^ 256

/-- The error kinds enumerated by the specification (§7).  The source skeleton
does not yet declare an error enum (it uses `anyhow::Result`); this inductive
names the spec's error kinds so that fallible operations can be embedded. -/
inductive EngineError
  | stateDesyncError
  | arithmeticOverflow
  | insufficientLiquidity
  | invalidGraphReference
  | noProfitableCycle
  | convergenceFailure
deriving Repr, DecidableEq

/-- `src/common/pool.rs` — `struct UniswapV2Pool`.  `reserve0`/`reserve1` are
`u128` in the source, `fee_bps` is `u32`; both are embedded as `ℕ` with range
hypotheses stated where they matter. -/
structure UniswapV2Pool where
  address : ℕ
  token0 : ℕ
  token1 : ℕ
  reserve0 : ℕ
  reserve1 : ℕ
  fee_bps : ℕ
deriving Repr, DecidableEq

/-- The `r_in` component of `let (r_in, r_out) = if zero_for_one { (reserve0, reserve1) }
else { (reserve1, reserve0) }` in `UniswapV2Pool::get_amount_out`. -/
def UniswapV2Pool.reserveIn (p : UniswapV2Pool) (zero_for_one : Bool) : ℕ :=
  if zero_for_one then p.reserve0 else p.reserve1

/-- The `r_out` component of the same destructuring. -/
def UniswapV2Pool.reserveOut (p : UniswapV2Pool) (zero_for_one : Bool) : ℕ :=
  if zero_for_one then p.reserve1 else p.reserve0

/-- `src/common/pool.rs` — `UniswapV2Pool::get_amount_out`:
```
let amount_in_with_fee = amount_in * U256::from(10000 - self.fee_bps);
let numerator = amount_in_with_fee * U256::from(r_out);
let denominator = (U256::from(r_in) * U256::from(10000)) + amount_in_with_fee;
Ok(numerator / denominator)
```
`10000 - self.fee_bps` is `u32` subtraction (matches `ℕ` truncated subtraction
for `fee_bps ≤ 10000`, the only case the claims consider); all `U256`
operations wrap modulo `2 ^ 256`; `U256` division by zero panics, modelled as
`none`. -/
def UniswapV2Pool.get_amount_out (p : UniswapV2Pool) (amount_in : ℕ)
    (zero_for_one : Bool) : Option ℕ :=
  let r_in := p.reserveIn zero_for_one
  let r_out := p.reserveOut zero_for_one
  let amount_in_with_fee := (amount_in % U256MOD) * (10000 - p.fee_bps) % U256MOD
  let numerator := amount_in_with_fee * r_out % U256MOD
  let denominator := (r_in * 10000 % U256MOD + amount_in_with_fee) % U256MOD
  if denominator = 0 then none else some (numerator / denominator)

/-- The specification's constant-product formula, stated in its own words
(spec §4.1): `output = amount_in_after_fee * reserve_out /
(reserve_in + amount_in_after_fee)`, the fee applied by scaling `amount_in` by
`(10000 - fee_bps)/10000`.  The scaling is exact (rational) and the final
division takes the integer part. -/
def v2SpecAmountOut (reserve_in reserve_out fee_bps amount_in : ℕ) : ℕ :=
  let amount_in_after_fee : ℚ := (amount_in : ℚ) * ((10000 : ℚ) - (fee_bps : ℚ)) / 10000
  ⌊amount_in_after_fee * (reserve_out : ℚ) / ((reserve_in : ℚ) + amount_in_after_fee)⌋₊

/-- `src/common/pool.rs` — `struct UniswapV3Pool`.  The `BTreeMap<i32, i128>`
tick map is embedded as an association list. -/
structure UniswapV3Pool where
  address : ℕ
  token0 : ℕ
  token1 : ℕ
  fee : ℕ
  liquidity : ℕ
  sqrt_price_x96 : ℕ
  tick : ℤ
  tick_spacing : ℤ
  tick_bitmap : List (ℤ × ℤ)
deriving Repr, DecidableEq

/-- `src/common/pool.rs` — `struct PoolKey` (V4 pool identity). -/
structure PoolKey where
  currency0 : ℕ
  currency1 : ℕ
  fee : ℕ
  tick_spacing : ℤ
  hooks : ℕ
deriving Repr, DecidableEq

/-- `src/common/pool.rs` — `struct UniswapV4Pool`. -/
structure UniswapV4Pool where
  key : PoolKey
  liquidity : ℕ
  sqrt_price_x96 : ℕ
  tick : ℤ
  hook_address : ℕ
deriving Repr, DecidableEq

/-- Abstract model of an `alloy_primitives::Log` (emitting address plus raw
topic/data words); its internals are never inspected by the embedded code,
since every `update_from_log` body in the source is an unimplemented stub. -/
structure Log where
  address : ℕ
  topics : List ℕ
  data : List ℕ
deriving Repr, DecidableEq

/-- `UniswapV2Pool::get_log_weight` is `todo!("-log(price)")` in the source;
the unimplemented panic is modelled as `none`. -/
def UniswapV2Pool.get_log_weight (_p : UniswapV2Pool) (_zero_for_one : Bool) :
    Option ℚ := none

/-- `UniswapV2Pool::get_marginal_price` is `todo!("y/x")` in the source;
modelled as `none`. -/
def UniswapV2Pool.get_marginal_price (_p : UniswapV2Pool) (_zero_for_one : Bool) :
    Option ℚ := none

/-- `UniswapV2Pool::update_from_log` is `todo!("Parse Sync event")` in the
source; modelled as `none`. -/
def UniswapV2Pool.update_from_log (_p : UniswapV2Pool) (_log : Log) :
    Option UniswapV2Pool := none

/-- `UniswapV3Pool::get_amount_out` is `todo!("Implement V3 SwapMath")` in the
source; modelled as `none`. -/
def UniswapV3Pool.get_amount_out (_p : UniswapV3Pool) (_amount_in : ℕ)
    (_zero_for_one : Bool) : Option ℕ := none

/-- `UniswapV3Pool::get_log_weight` is `todo!()` in the source; modelled as
`none`. -/
def UniswapV3Pool.get_log_weight (_p : UniswapV3Pool) (_zero_for_one : Bool) :
    Option ℚ := none

/-- `UniswapV3Pool::get_marginal_price` is `todo!()` in the source; modelled as
`none`. -/
def UniswapV3Pool.get_marginal_price (_p : UniswapV3Pool) (_zero_for_one : Bool) :
    Option ℚ := none

/-- `UniswapV3Pool::update_from_log` is `todo!("Parse Swap/Mint/Burn")` in the
source; modelled as `none`. -/
def UniswapV3Pool.update_from_log (_p : UniswapV3Pool) (_log : Log) :
    Option UniswapV3Pool := none

/-- `UniswapV3Pool::tokens` returns `(self.token0, self.token1)`. -/
def UniswapV3Pool.tokens (p : UniswapV3Pool) : ℕ × ℕ := (p.token0, p.token1)

/-- `UniswapV2Pool::tokens` returns `(self.token0, self.token1)`. -/
def UniswapV2Pool.tokens (p : UniswapV2Pool) : ℕ × ℕ := (p.token0, p.token1)

/-- `UniswapV4Pool::address` returns `self.key.hooks` (in V4 the pool lives in
the PoolManager; the source tracks the hook address). -/
def UniswapV4Pool.address (p : UniswapV4Pool) : ℕ := p.key.hooks

/-- `UniswapV4Pool::tokens` returns `(self.key.currency0, self.key.currency1)`. -/
def UniswapV4Pool.tokens (p : UniswapV4Pool) : ℕ × ℕ := (p.key.currency0, p.key.currency1)

/-- `UniswapV4Pool::get_amount_out` is `todo!()` in the source; modelled as
`none`. -/
def UniswapV4Pool.get_amount_out (_p : UniswapV4Pool) (_amount_in : ℕ)
    (_zero_for_one : Bool) : Option ℕ := none

/-- `UniswapV4Pool::get_log_weight` is `todo!()` in the source; modelled as
`none`. -/
def UniswapV4Pool.get_log_weight (_p : UniswapV4Pool) (_zero_for_one : Bool) :
    Option ℚ := none

/-- `UniswapV4Pool::get_marginal_price` is `todo!()` in the source; modelled as
`none`. -/
def UniswapV4Pool.get_marginal_price (_p : UniswapV4Pool) (_zero_for_one : Bool) :
    Option ℚ := none

/-- `UniswapV4Pool::update_from_log` is `todo!()` in the source; modelled as
`none`. -/
def UniswapV4Pool.update_from_log (_p : UniswapV4Pool) (_log : Log) :
    Option UniswapV4Pool := none

/-- `src/common/pool.rs` — `enum PoolVariant { V2(..), V3(..), V4(..) }`. -/
inductive PoolVariant
  | V2 (p : UniswapV2Pool)
  | V3 (p : UniswapV3Pool)
  | V4 (p : UniswapV4Pool)
deriving Repr, DecidableEq

/-- `impl LiquidityPool for PoolVariant` — `address`, direct match on the
variant. -/
def PoolVariant.address : PoolVariant → ℕ
  | .V2 p => p.address
  | .V3 p => p.address
  | .V4 p => p.address

/-- `impl LiquidityPool for PoolVariant` — `tokens`. -/
def PoolVariant.tokens : PoolVariant → ℕ × ℕ
  | .V2 p => p.tokens
  | .V3 p => p.tokens
  | .V4 p => p.tokens

/-- `impl LiquidityPool for PoolVariant` — `get_amount_out`. -/
def PoolVariant.get_amount_out : PoolVariant → ℕ → Bool → Option ℕ
  | .V2 p, amount_in, zero_for_one => p.get_amount_out amount_in zero_for_one
  | .V3 p, amount_in, zero_for_one => p.get_amount_out amount_in zero_for_one
  | .V4 p, amount_in, zero_for_one => p.get_amount_out amount_in zero_for_one

/-- `impl LiquidityPool for PoolVariant` — `get_log_weight`. -/
def PoolVariant.get_log_weight : PoolVariant → Bool → Option ℚ
  | .V2 p, zero_for_one => p.get_log_weight zero_for_one
  | .V3 p, zero_for_one => p.get_log_weight zero_for_one
  | .V4 p, zero_for_one => p.get_log_weight zero_for_one

/-- `impl LiquidityPool for PoolVariant` — `get_marginal_price`. -/
def PoolVariant.get_marginal_price : PoolVariant → Bool → Option ℚ
  | .V2 p, zero_for_one => p.get_marginal_price zero_for_one
  | .V3 p, zero_for_one => p.get_marginal_price zero_for_one
  | .V4 p, zero_for_one => p.get_marginal_price zero_for_one

/-- `impl LiquidityPool for PoolVariant` — `update_from_log`: the call is
forwarded to the wrapped variant, whose in-place mutation is embedded as the
updated variant value wrapped back into the same constructor. -/
def PoolVariant.update_from_log : PoolVariant → Log → Option PoolVariant
  | .V2 p, log => (p.update_from_log log).map PoolVariant.V2
  | .V3 p, log => (p.update_from_log log).map PoolVariant.V3
  | .V4 p, log => (p.update_from_log log).map PoolVariant.V4

/-- `src/common/token.rs` — `struct Token`. -/
structure Token where
  address : ℕ
  symbol : String
  decimals : ℕ
  is_weth : Bool
  is_native : Bool
deriving Repr

/-- The mainnet WETH address hard-coded in `Token::new`
(`0xC02aaA39b223FE8D0A0e5C4F27eAD9083C756Cc2`). -/
def WETH_ADDRESS : ℕ := 0xC02aaA39b223FE8D0A0e5C4F27eAD9083C756Cc2

/-- `Token::new`: auto-detects `is_weth` (address equals mainnet WETH) and
`is_native` (address is the zero address). -/
def Token.new (address : ℕ) (symbol : String) (decimals : ℕ) : Token :=
  { address := address
    symbol := symbol
    decimals := decimals
    is_weth := address == WETH_ADDRESS
    is_native := address == 0 }

/-- `Token::empty`: `Token::new(Address::ZERO, "UNK".to_string(), 18)`. -/
def Token.empty : Token := Token.new 0 "UNK" 18

/-- `impl PartialEq for Token`: two tokens are equal iff their addresses are
equal. -/
def Token.beq (t other : Token) : Bool := t.address == other.address

/-- `impl Hash for Token`: only `self.address` is fed to the hasher, embedded
by parametrising over an arbitrary hasher on addresses. -/
def Token.hashWith (hasher : ℕ → ℕ) (t : Token) : ℕ := hasher t.address

/-- Modelled from the spec: `apply_state_change` state for the
constant-product pool.  `UniswapV2Pool::update_from_log` in the source is an
unimplemented stub (`todo!("Parse Sync event")`), so the pool's last-applied
ordering key (spec §4.1: "block height, log position") is carried alongside
the skeleton's pool struct. -/
structure SyncedV2Pool where
  pool : UniswapV2Pool
  last_key : ℕ
deriving Repr, DecidableEq

/-- The spec's constant-product reserve-update event (spec §6):
`{pool_id, ordering_key, reserve_a, reserve_b}`. -/
structure ReserveUpdateEvent where
  pool_id : ℕ
  ordering_key : ℕ
  reserve_a : ℕ
  reserve_b : ℕ
deriving Repr, DecidableEq

/-- Modelled from the spec: `apply_state_change` (spec §4.1) — "mutates
reserves (constant-product) from a decoded event.  Fails with
`StateDesyncError` if the event's ordering key is not strictly greater than
the pool's last-applied key, or if it targets a pool/asset pair inconsistent
with this instance"; on rejection the event is dropped and prior state
retained (§7).  Reserves are `u128`, hence the reduction modulo `2 ^ 128`. -/
def SyncedV2Pool.apply_state_change (s : SyncedV2Pool) (e : ReserveUpdateEvent) :
    SyncedV2Pool × Option EngineError :=
  if e.pool_id ≠ s.pool.address then
    (s, some EngineError.stateDesyncError)
  else if e.ordering_key ≤ s.last_key then
    (s, some EngineError.stateDesyncError)
  else
    ({ pool := { s.pool with
        reserve0 := e.reserve_a % 2 ^ 128
        reserve1 := e.reserve_b % 2 ^ 128 }
       last_key := e.ordering_key }, none)

/-- Lookup in an association list keyed by address, embedding the
`HashMap<Address, NodeIndex>` lookups of both graph modules. -/
def lookupAddr (m : List (ℕ × ℕ)) (a : ℕ) : Option ℕ :=
  (m.find? (fun kv => kv.1 == a)).map (fun kv => kv.2)

/-- `src/common/graph.rs` — `struct GraphManager`: a petgraph
`DiGraph<Token, GraphEdge>` plus a `HashMap<Address, NodeIndex>`.  The node
arena is embedded as a list indexed by position, the map as an association
list. -/
structure GraphManager where
  nodes : List Token
  node_map : List (ℕ × ℕ)

/-- `GraphManager::new`. -/
def GraphManager.new : GraphManager := { nodes := [], node_map := [] }

/-- `GraphManager::add_or_get_token`: if the address is already in
`node_map`, return its index; otherwise add a node to the graph (petgraph
returns the index of the appended node) and record it in the map. -/
def GraphManager.add_or_get_token (g : GraphManager) (token : Token) :
    GraphManager × ℕ :=
  match lookupAddr g.node_map token.address with
  | some index => (g, index)
  | none =>
      let index := g.nodes.length
      ({ nodes := g.nodes ++ [token]
         node_map := g.node_map ++ [(token.address, index)] }, index)

/-- `src/utils/models.rs` — `struct TokenNode`. -/
structure TokenNode where
  address : ℕ
  symbol : String
  decimals : ℕ
deriving Repr, DecidableEq

/-- `src/utils/models.rs` — `struct PoolEdge`.  The `f64` log weight is
embedded as a rational (it is only stored, never computed, in the embedded
operations). -/
structure PoolEdge where
  address : ℕ
  fee : ℕ
  weight : ℚ
  liquidity : ℕ
  sqrt_price_x96 : ℕ
  tick : ℤ
  tick_spacing : ℤ
  zero_for_one : Bool
deriving Repr, DecidableEq

/-- `src/scout/graph.rs` — `struct ArbitrageGraph`: a petgraph
`DiGraph<TokenNode, PoolEdge>` plus a `HashMap<Address, NodeIndex>`.  Edges
are embedded as `(source index, target index, payload)` triples in insertion
order; petgraph's `add_edge` always appends a fresh edge (parallel edges are
kept — a multigraph). -/
structure ArbitrageGraph where
  nodes : List TokenNode
  edges : List (ℕ × ℕ × PoolEdge)
  token_to_node : List (ℕ × ℕ)
deriving Repr, DecidableEq

/-- `ArbitrageGraph::new`. -/
def ArbitrageGraph.new : ArbitrageGraph :=
  { nodes := [], edges := [], token_to_node := [] }

/-- `ArbitrageGraph::add_token`: `entry(token.address).or_insert_with(|| graph.add_node(..))`
— return the mapped index if present, otherwise append a node and map its
index. -/
def ArbitrageGraph.add_token (g : ArbitrageGraph) (token : TokenNode) :
    ArbitrageGraph × ℕ :=
  match lookupAddr g.token_to_node token.address with
  | some index => (g, index)
  | none =>
      let index := g.nodes.length
      ({ g with
         nodes := g.nodes ++ [token]
         token_to_node := g.token_to_node ++ [(token.address, index)] }, index)

/-- `ArbitrageGraph::add_pool`: looks up both token nodes
(`.expect("Node in exists")` / `.expect("Node out exists")` — the panic on a
missing node is modelled as the `InvalidGraphReference` error outcome with the
graph unchanged) and then appends a single directed edge `u → v` carrying the
pool payload. -/
def ArbitrageGraph.add_pool (g : ArbitrageGraph) (pool : PoolEdge)
    (token_in token_out : ℕ) : ArbitrageGraph × Option EngineError :=
  match lookupAddr g.token_to_node token_in with
  | none => (g, some EngineError.invalidGraphReference)
  | some u =>
      match lookupAddr g.token_to_node token_out with
      | none => (g, some EngineError.invalidGraphReference)
      | some v => ({ g with edges := g.edges ++ [(u, v, pool)] }, none)

/-- The pool of the spec's constant-product exactness test (§8): reserves
`1_000_000e18` / `2_000_000e6`, fee `30` bps. -/
def cPool : UniswapV2Pool :=
  { address := 1
    token0 := 2
    token1 := 3
    reserve0 := 10 ^ 24
    reserve1 := 2 * 10 ^ 12
    fee_bps := 30 }

/-- A V2 pool with both reserves zero (fee 30 bps). -/
def zeroReservePool : UniswapV2Pool :=
  { address := 1
    token0 := 2
    token1 := 3
    reserve0 := 0
    reserve1 := 0
    fee_bps := 30 }

/-- Two tokens (addresses 1 and 2) followed by two distinct pools (addresses
100 and 200) inserted between the same pair via the source's `add_token` /
`add_pool` operations. -/
def twoPoolsSamePair : ArbitrageGraph :=
  ((((ArbitrageGraph.new.add_token ⟨1, "A", 18⟩).1.add_token ⟨2, "B", 18⟩).1.add_pool
      ⟨100, 3000, 0, 1000, 0, 0, 60, true⟩ 1 2).1.add_pool
      ⟨200, 3000, 0, 2000, 0, 0, 60, true⟩ 1 2).1

/-- `lookupAddr` skips a block of keys on which it fails and reaches a newly
appended entry. -/
theorem lookupAddr_append_of_none (m : List (ℕ × ℕ)) (a : ℕ) (kv : ℕ × ℕ)
    (h : lookupAddr m a = none) :
    lookupAddr (m ++ [kv]) a = lookupAddr [kv] a := by
  induction m with
  | nil => rfl
  | cons hd tl ih =>
      unfold lookupAddr at h ⊢
      cases hhd : (hd.1 == a) with
      | true => simp [List.find?_cons, hhd] at h
      | false =>
          simp only [List.cons_append, List.find?_cons, hhd] at h ⊢
          exact ih h

/-- C7: two `Token` values are equal exactly when their addresses are equal,
regardless of symbol, decimals, or derived flags; hashing feeds only the
address to the hasher, so address-equal (hence equal) tokens hash equally. -/
theorem C7_token_identity :
    (∀ t other : Token, Token.beq t other = true ↔ t.address = other.address) ∧
    (∀ (hasher : ℕ → ℕ) (t other : Token), t.address = other.address →
      Token.hashWith hasher t = Token.hashWith hasher other) ∧
    (∀ (hasher : ℕ → ℕ) (t other : Token), Token.beq t other = true →
      Token.hashWith hasher t = Token.hashWith hasher other) := by
  refine ⟨?_, ?_, ?_⟩
  · intro t other
    simp [Token.beq]
  · intro hasher t other h
    simp [Token.hashWith, h]
  · intro hasher t other h
    simp only [Token.beq, beq_iff_eq] at h
    simp [Token.hashWith, h]

/-- Witness for C7 at two concrete tokens sharing address 5 but differing in
every other field. -/
theorem C7_token_identity_witness :
    Token.beq ⟨5, "A", 18, false, false⟩ ⟨5, "B", 6, true, true⟩ = true ∧
    Token.hashWith (fun a => a * a + 7) ⟨5, "A", 18, false, false⟩ =
      Token.hashWith (fun a => a * a + 7) ⟨5, "B", 6, true, true⟩ :=
  ⟨(C7_token_identity.1 ⟨5, "A", 18, false, false⟩ ⟨5, "B", 6, true, true⟩).mpr rfl,
   C7_token_identity.2.2 (fun a => a * a + 7) ⟨5, "A", 18, false, false⟩
     ⟨5, "B", 6, true, true⟩ (by decide)⟩

/-- C9: `Token::new` sets `is_weth` exactly when the address equals the
mainnet WETH address and `is_native` exactly when the address is zero;
`Token::empty()` therefore has `is_native = true` and `is_weth = false`. -/
theorem C9_token_new_flags :
    (∀ (address : ℕ) (symbol : String) (decimals : ℕ),
      ((Token.new address symbol decimals).is_weth = true ↔ address = WETH_ADDRESS) ∧
      ((Token.new address symbol decimals).is_native = true ↔ address = 0)) ∧
    Token.empty.is_native = true ∧ Token.empty.is_weth = false := by
  refine ⟨?_, by decide, by decide⟩
  intro address symbol decimals
  constructor <;> simp [Token.new]

/-- Witness for C9 at the WETH address and the zero address. -/
theorem C9_token_new_flags_witness :
    (Token.new WETH_ADDRESS "WETH" 18).is_weth = true ∧
    (Token.new 0 "ETH" 18).is_native = true :=
  ⟨(C9_token_new_flags.1 WETH_ADDRESS "WETH" 18).1.mpr rfl,
   (C9_token_new_flags.1 0 "ETH" 18).2.mpr rfl⟩

/-- C8: every capability-set operation on a `PoolVariant` returns the same
result as the same operation invoked directly on the wrapped V2, V3, or V4
value with the same arguments (`update_from_log`'s in-place mutation is
compared up to re-wrapping the updated variant). -/
theorem C8_poolvariant_dispatch :
    (∀ p : UniswapV2Pool, (PoolVariant.V2 p).address = p.address) ∧
    (∀ p : UniswapV3Pool, (PoolVariant.V3 p).address = p.address) ∧
    (∀ p : UniswapV4Pool, (PoolVariant.V4 p).address = p.address) ∧
    (∀ p : UniswapV2Pool, (PoolVariant.V2 p).tokens = p.tokens) ∧
    (∀ p : UniswapV3Pool, (PoolVariant.V3 p).tokens = p.tokens) ∧
    (∀ p : UniswapV4Pool, (PoolVariant.V4 p).tokens = p.tokens) ∧
    (∀ (p : UniswapV2Pool) (amount_in : ℕ) (zero_for_one : Bool),
      (PoolVariant.V2 p).get_amount_out amount_in zero_for_one =
        p.get_amount_out amount_in zero_for_one) ∧
    (∀ (p : UniswapV3Pool) (amount_in : ℕ) (zero_for_one : Bool),
      (PoolVariant.V3 p).get_amount_out amount_in zero_for_one =
        p.get_amount_out amount_in zero_for_one) ∧
    (∀ (p : UniswapV4Pool) (amount_in : ℕ) (zero_for_one : Bool),
      (PoolVariant.V4 p).get_amount_out amount_in zero_for_one =
        p.get_amount_out amount_in zero_for_one) ∧
    (∀ (p : UniswapV2Pool) (zero_for_one : Bool),
      (PoolVariant.V2 p).get_log_weight zero_for_one = p.get_log_weight zero_for_one) ∧
    (∀ (p : UniswapV3Pool) (zero_for_one : Bool),
      (PoolVariant.V3 p).get_log_weight zero_for_one = p.get_log_weight zero_for_one) ∧
    (∀ (p : UniswapV4Pool) (zero_for_one : Bool),
      (PoolVariant.V4 p).get_log_weight zero_for_one = p.get_log_weight zero_for_one) ∧
    (∀ (p : UniswapV2Pool) (zero_for_one : Bool),
      (PoolVariant.V2 p).get_marginal_price zero_for_one = p.get_marginal_price zero_for_one) ∧
    (∀ (p : UniswapV3Pool) (zero_for_one : Bool),
      (PoolVariant.V3 p).get_marginal_price zero_for_one = p.get_marginal_price zero_for_one) ∧
    (∀ (p : UniswapV4Pool) (zero_for_one : Bool),
      (PoolVariant.V4 p).get_marginal_price zero_for_one = p.get_marginal_price zero_for_one) ∧
    (∀ (p : UniswapV2Pool) (log : Log),
      (PoolVariant.V2 p).update_from_log log =
        (p.update_from_log log).map PoolVariant.V2) ∧
    (∀ (p : UniswapV3Pool) (log : Log),
      (PoolVariant.V3 p).update_from_log log =
        (p.update_from_log log).map PoolVariant.V3) ∧
    (∀ (p : UniswapV4Pool) (log : Log),
      (PoolVariant.V4 p).update_from_log log =
        (p.update_from_log log).map PoolVariant.V4) :=
  ⟨fun _ => rfl, fun _ => rfl, fun _ => rfl, fun _ => rfl, fun _ => rfl, fun _ => rfl,
   fun _ _ _ => rfl, fun _ _ _ => rfl, fun _ _ _ => rfl,
   fun _ _ => rfl, fun _ _ => rfl, fun _ _ => rfl,
   fun _ _ => rfl, fun _ _ => rfl, fun _ _ => rfl,
   fun _ _ => rfl, fun _ _ => rfl, fun _ _ => rfl⟩

/-- C2 (code evaluation): on a pool with both reserves zero,
`get_amount_out` never produces an `InsufficientLiquidity` failure: for
`amount_in = 1` it returns `Ok(0)` (numerator is zero, denominator is the
nonzero after-fee amount), and for `amount_in = 0` the denominator is zero
and the `U256` division panics (modelled as `none`). -/
theorem C2_zero_reserves_eval :
    zeroReservePool.get_amount_out 1 true = some 0 ∧
    zeroReservePool.get_amount_out 0 true = none := by
  constructor <;> rfl

/-- C4 (code evaluation): after inserting two tokens and then two distinct
pools between the same pair with one `add_pool` call each, the node count is
two but the edge count is two — `add_pool` appends exactly one directed edge
per call (despite its "bidirectional edge" doc comment), not two, so the edge
count does not grow by four.  The two parallel edges are kept separate
(petgraph multigraph semantics), not merged into one. -/
theorem C4_add_pool_single_edge_eval :
    twoPoolsSamePair.nodes.length = 2 ∧
    twoPoolsSamePair.edges.length = 2 ∧
    ¬ twoPoolsSamePair.edges.length = 4 := by
  refine ⟨rfl, rfl, by decide⟩

/-- C5: `add_or_get_token` is idempotent — if the address is already mapped it
returns the existing index and leaves the manager unchanged; otherwise it
appends the token and records its index; a second call with the same token
returns the first call's index and changes nothing. -/
theorem C5_add_or_get_token_idempotent (g : GraphManager) (token : Token) :
    (∀ index, lookupAddr g.node_map token.address = some index →
      g.add_or_get_token token = (g, index)) ∧
    (lookupAddr g.node_map token.address = none →
      (g.add_or_get_token token).2 = g.nodes.length ∧
      (g.add_or_get_token token).1.nodes = g.nodes ++ [token] ∧
      (g.add_or_get_token token).1.node_map
        = g.node_map ++ [(token.address, g.nodes.length)]) ∧
    (g.add_or_get_token token).1.add_or_get_token token
      = ((g.add_or_get_token token).1, (g.add_or_get_token token).2) := by
  refine ⟨?_, ?_, ?_⟩
  · intro index h
    simp [GraphManager.add_or_get_token, h]
  · intro h
    simp [GraphManager.add_or_get_token, h]
  · cases h : lookupAddr g.node_map token.address with
    | some index =>
        simp [GraphManager.add_or_get_token, h]
    | none =>
        have hnew : lookupAddr (g.node_map ++ [(token.address, g.nodes.length)])
            token.address = some g.nodes.length := by
          rw [lookupAddr_append_of_none _ _ _ h]
          simp [lookupAddr, List.find?]
        simp [GraphManager.add_or_get_token, h, hnew]

/-- Witness for C5: a fresh manager takes the token at index 0, and a manager
already holding address 5 returns the stored index unchanged. -/
theorem C5_add_or_get_token_idempotent_witness :
    (({ nodes := [Token.new 5 "AAA" 18], node_map := [(5, 0)] } : GraphManager).add_or_get_token
        (Token.new 5 "BBB" 6) = ({ nodes := [Token.new 5 "AAA" 18], node_map := [(5, 0)] }, 0)) ∧
    ((GraphManager.new.add_or_get_token (Token.new 5 "AAA" 18)).2
        = GraphManager.new.nodes.length) :=
  ⟨(C5_add_or_get_token_idempotent
      { nodes := [Token.new 5 "AAA" 18], node_map := [(5, 0)] } (Token.new 5 "BBB" 6)).1 0 rfl,
   ((C5_add_or_get_token_idempotent GraphManager.new (Token.new 5 "AAA" 18)).2.1 rfl).1⟩

/-- C6: `add_pool` called with a token address that has no node in the graph
fails (the source's `.expect(..)` panic, modelled as the
`InvalidGraphReference` outcome) and returns the graph unchanged, inserting no
edge — whichever of the two lookups is the missing one. -/
theorem C6_add_pool_missing_node (g : ArbitrageGraph) (pool : PoolEdge)
    (token_in token_out : ℕ) :
    (lookupAddr g.token_to_node token_in = none →
      g.add_pool pool token_in token_out = (g, some EngineError.invalidGraphReference)) ∧
    (lookupAddr g.token_to_node token_out = none →
      g.add_pool pool token_in token_out = (g, some EngineError.invalidGraphReference)) := by
  constructor
  · intro h
    simp [ArbitrageGraph.add_pool, h]
  · intro h
    cases hin : lookupAddr g.token_to_node token_in with
    | none => simp [ArbitrageGraph.add_pool, hin]
    | some u => simp [ArbitrageGraph.add_pool, hin, h]

/-- Witness for C6: a graph holding only token address 1 rejects an edge whose
input token is the absent address 7 and is returned unchanged. -/
theorem C6_add_pool_missing_node_witness :
    (ArbitrageGraph.new.add_token ⟨1, "A", 18⟩).1.add_pool
        ⟨100, 3000, 0, 1000, 0, 0, 60, true⟩ 7 1
      = ((ArbitrageGraph.new.add_token ⟨1, "A", 18⟩).1,
         some EngineError.invalidGraphReference) :=
  (C6_add_pool_missing_node (ArbitrageGraph.new.add_token ⟨1, "A", 18⟩).1
    ⟨100, 3000, 0, 1000, 0, 0, 60, true⟩ 7 1).1 rfl

/-- C3: an event whose ordering key is lower than or equal to the pool's
last-applied key is rejected with `StateDesyncError` and the state (hence
every quantity derived from it, such as edge weights) is returned unchanged;
in particular a successfully applied event, replayed identically, is rejected
the second time with the state left exactly as after the first application. -/
theorem C3_stale_event_rejected (s : SyncedV2Pool) (e dup : ReserveUpdateEvent) :
    (e.ordering_key ≤ s.last_key →
      s.apply_state_change e = (s, some EngineError.stateDesyncError)) ∧
    (s.pool.address = dup.pool_id → s.last_key < dup.ordering_key →
      (s.apply_state_change dup).1.apply_state_change dup
        = ((s.apply_state_change dup).1, some EngineError.stateDesyncError)) := by
  constructor
  · intro h
    simp [SyncedV2Pool.apply_state_change, h]
  · intro haddr hkey
    have hfirst : s.apply_state_change dup
        = ({ pool := { s.pool with
              reserve0 := dup.reserve_a % 2 ^ 128
              reserve1 := dup.reserve_b % 2 ^ 128 }
             last_key := dup.ordering_key }, none) := by
      unfold SyncedV2Pool.apply_state_change
      rw [if_neg (by simp [haddr]), if_neg (Nat.not_le.mpr hkey)]
    rw [hfirst]
    unfold SyncedV2Pool.apply_state_change
    rw [if_neg (by simp [haddr]), if_pos (Nat.le_refl _)]

/-- Witness for C3: a pool at key 10 rejects an event with key 5, and an
event with key 11 applies once and is rejected on replay. -/
theorem C3_stale_event_rejected_witness :
    (SyncedV2Pool.apply_state_change ⟨cPool, 10⟩ ⟨1, 5, 7, 8⟩
      = (⟨cPool, 10⟩, some EngineError.stateDesyncError)) ∧
    ((SyncedV2Pool.apply_state_change ⟨cPool, 10⟩ ⟨1, 11, 7, 8⟩).1.apply_state_change
        ⟨1, 11, 7, 8⟩
      = ((SyncedV2Pool.apply_state_change ⟨cPool, 10⟩ ⟨1, 11, 7, 8⟩).1,
         some EngineError.stateDesyncError)) :=
  ⟨(C3_stale_event_rejected ⟨cPool, 10⟩ ⟨1, 5, 7, 8⟩ ⟨1, 11, 7, 8⟩).1 (by decide),
   (C3_stale_event_rejected ⟨cPool, 10⟩ ⟨1, 5, 7, 8⟩ ⟨1, 11, 7, 8⟩).2 rfl (by decide)⟩

/-- Closed form of `UniswapV2Pool::get_amount_out` when no `U256` operation
wraps and the denominator is nonzero: the wrapping reductions are the
identity, giving the pure integer quotient. -/
theorem UniswapV2Pool.get_amount_out_eq (p : UniswapV2Pool) (amount_in : ℕ)
    (zero_for_one : Bool)
    (hin : amount_in < U256MOD)
    (hA : amount_in * (10000 - p.fee_bps) < U256MOD)
    (hN : amount_in * (10000 - p.fee_bps) * p.reserveOut zero_for_one < U256MOD)
    (hD : p.reserveIn zero_for_one * 10000
      + amount_in * (10000 - p.fee_bps) < U256MOD)
    (hden : 0 < p.reserveIn zero_for_one * 10000
      + amount_in * (10000 - p.fee_bps)) :
    p.get_amount_out amount_in zero_for_one
      = some (amount_in * (10000 - p.fee_bps) * p.reserveOut zero_for_one
          / (p.reserveIn zero_for_one * 10000 + amount_in * (10000 - p.fee_bps))) := by
  have hD' : p.reserveIn zero_for_one * 10000 < U256MOD :=
    lt_of_le_of_lt (Nat.le_add_right _ _) hD
  unfold UniswapV2Pool.get_amount_out
  simp only [Nat.mod_eq_of_lt hin, Nat.mod_eq_of_lt hA, Nat.mod_eq_of_lt hN,
    Nat.mod_eq_of_lt hD', Nat.mod_eq_of_lt hD]
  rw [if_neg hden.ne']

/-- C1: for fee `fee_bps ≤ 10000` and inputs for which the `U256` arithmetic
does not wrap (in particular `reserve * 10000` and the numerator and
denominator fit in 256 bits) and the denominator is nonzero,
`get_amount_out` returns exactly the integer part of the spec's formula
`amount_in_after_fee * reserve_out / (reserve_in + amount_in_after_fee)` with
the fee applied by exact scaling of `amount_in` by `(10000 - fee_bps)/10000`. -/
theorem C1_v2_amount_out_exact (p : UniswapV2Pool) (amount_in : ℕ)
    (zero_for_one : Bool)
    (hin : amount_in < U256MOD)
    (hfee : p.fee_bps ≤ 10000)
    (hA : amount_in * (10000 - p.fee_bps) < U256MOD)
    (hN : amount_in * (10000 - p.fee_bps) * p.reserveOut zero_for_one < U256MOD)
    (hD : p.reserveIn zero_for_one * 10000
      + amount_in * (10000 - p.fee_bps) < U256MOD)
    (hden : 0 < p.reserveIn zero_for_one * 10000
      + amount_in * (10000 - p.fee_bps)) :
    p.get_amount_out amount_in zero_for_one
      = some (v2SpecAmountOut (p.reserveIn zero_for_one) (p.reserveOut zero_for_one)
          p.fee_bps amount_in) := by
  have hsub : ((10000 - p.fee_bps : ℕ) : ℚ) = (10000 : ℚ) - (p.fee_bps : ℚ) :=
    Nat.cast_sub hfee
  have hDne : ((p.reserveIn zero_for_one * 10000
      + amount_in * (10000 - p.fee_bps) : ℕ) : ℚ) ≠ 0 :=
    Nat.cast_ne_zero.mpr hden.ne'
  have hd2 : (p.reserveIn zero_for_one : ℚ)
      + (amount_in : ℚ) * ((10000 : ℚ) - (p.fee_bps : ℚ)) / 10000 ≠ 0 := by
    have : (p.reserveIn zero_for_one : ℚ)
        + (amount_in : ℚ) * ((10000 : ℚ) - (p.fee_bps : ℚ)) / 10000
        = ((p.reserveIn zero_for_one * 10000
            + amount_in * (10000 - p.fee_bps) : ℕ) : ℚ) / 10000 := by
      push_cast [hsub]
      ring
    rw [this]
    exact div_ne_zero hDne (by norm_num)
  have hXY : (amount_in : ℚ) * ((10000 : ℚ) - (p.fee_bps : ℚ)) / 10000
        * (p.reserveOut zero_for_one : ℚ)
        / ((p.reserveIn zero_for_one : ℚ)
          + (amount_in : ℚ) * ((10000 : ℚ) - (p.fee_bps : ℚ)) / 10000)
      = ((amount_in * (10000 - p.fee_bps) * p.reserveOut zero_for_one : ℕ) : ℚ)
        / ((p.reserveIn zero_for_one * 10000
            + amount_in * (10000 - p.fee_bps) : ℕ) : ℚ) := by
    rw [div_eq_div_iff hd2 hDne]
    push_cast [hsub]
    ring
  have hspec : v2SpecAmountOut (p.reserveIn zero_for_one) (p.reserveOut zero_for_one)
        p.fee_bps amount_in
      = amount_in * (10000 - p.fee_bps) * p.reserveOut zero_for_one
        / (p.reserveIn zero_for_one * 10000 + amount_in * (10000 - p.fee_bps)) := by
    show ⌊(amount_in : ℚ) * ((10000 : ℚ) - (p.fee_bps : ℚ)) / 10000
        * (p.reserveOut zero_for_one : ℚ)
        / ((p.reserveIn zero_for_one : ℚ)
          + (amount_in : ℚ) * ((10000 : ℚ) - (p.fee_bps : ℚ)) / 10000)⌋₊ = _
    rw [hXY]
    exact Nat.floor_div_eq_div _ _
  rw [p.get_amount_out_eq amount_in zero_for_one hin hA hN hD hden, hspec]

/-- Witness for C1 at the spec's exactness test (§8): reserves `1_000_000e18`
and `2_000_000e6`, fee 30 bps, input `10_000e18`. -/
theorem C1_v2_amount_out_exact_witness :
    cPool.get_amount_out (10 ^ 22) true
      = some (v2SpecAmountOut (cPool.reserveIn true) (cPool.reserveOut true)
          cPool.fee_bps (10 ^ 22)) :=
  C1_v2_amount_out_exact cPool (10 ^ 22) true (by decide) (by decide) (by decide)
    (by decide) (by decide) (by decide)

/-- C10: with a positive input-side reserve, a fee of at most 10000 bps, and
no `U256` wrap, `get_amount_out` succeeds and its output never exceeds the
output-side reserve, and is strictly below it whenever that reserve is
positive. -/
theorem C10_output_bounded (p : UniswapV2Pool) (amount_in : ℕ) (zero_for_one : Bool)
    (hin : amount_in < U256MOD)
    (hfee : p.fee_bps ≤ 10000)
    (hrin : 0 < p.reserveIn zero_for_one)
    (hA : amount_in * (10000 - p.fee_bps) < U256MOD)
    (hN : amount_in * (10000 - p.fee_bps) * p.reserveOut zero_for_one < U256MOD)
    (hD : p.reserveIn zero_for_one * 10000
      + amount_in * (10000 - p.fee_bps) < U256MOD) :
    ∃ out, p.get_amount_out amount_in zero_for_one = some out ∧
      out ≤ p.reserveOut zero_for_one ∧
      (0 < p.reserveOut zero_for_one → out < p.reserveOut zero_for_one) := by
  set A := amount_in * (10000 - p.fee_bps) with hAdef
  set r_in := p.reserveIn zero_for_one with hrin_def
  set r_out := p.reserveOut zero_for_one with hrout_def
  have hden : 0 < r_in * 10000 + A :=
    lt_of_lt_of_le (by positivity) (Nat.le_add_right _ _)
  refine ⟨A * r_out / (r_in * 10000 + A),
    p.get_amount_out_eq amount_in zero_for_one hin hA hN hD hden, ?_, ?_⟩
  · calc A * r_out / (r_in * 10000 + A)
        ≤ (r_in * 10000 + A) * r_out / (r_in * 10000 + A) :=
          Nat.div_le_div_right (Nat.mul_le_mul_right _ (Nat.le_add_left _ _))
      _ = r_out := Nat.mul_div_cancel_left _ hden
  · intro hro
    rw [Nat.div_lt_iff_lt_mul hden]
    have : 0 < r_out * (r_in * 10000) := by positivity
    nlinarith

/-- Witness for C10 at the spec's exactness-test pool with input `10_000e18`:
the output exists and is strictly below the output-side reserve. -/
theorem C10_output_bounded_witness :
    ∃ out, cPool.get_amount_out (10 ^ 22) true = some out ∧
      out ≤ cPool.reserveOut true ∧
      (0 < cPool.reserveOut true → out < cPool.reserveOut true) :=
  C10_output_bounded cPool (10 ^ 22) true (by decide) (by decide) (by decide)
    (by decide) (by decide) (by decide)
